import Mathlib

/-!
Verification development for the LIBERO evaluation scripts of this repository.

The embedding covers, from `src/experiments/robot/libero/run_libero_eval.py`:
the per-episode while-loop (lines 210-334) as a fuel-indexed state machine over
an abstract environment trace, the post-episode bookkeeping (lines 336-365:
tally increments, per-task JSON update, replay-video save), the orchestrator's
task/trial iteration (lines 160-191, including the inserted `task_id=0`
override at line 163), the per-suite `max_steps` selection (lines 197-206),
the motion-similarity computation (lines 262-303) and the gripper
post-processing pipeline (lines 305-324); and, from
`src/experiments/logs/convert2csv.py`, the per-line conversion logic
(lines 27-47).

Machine reals (numpy float64) are idealised as `ℝ` for the similarity
formulas and as exact decimals (`ℚ`) for the text-to-number conversion.
-/

namespace LiberoEval

/-- Outcome of one iteration of the episode while-loop body
(`run_libero_eval.py` lines 211-334): either one `env.step` call completed and
returned the flag `done` (the settling branch at line 215 or the acting branch
at line 324), or some exception was raised in the iteration before an
`env.step` completed (then the Python local `done` is not reassigned in that
iteration). After the `env.step` at line 324 only pure increments run, so an
iteration cannot both complete a step and raise. -/
inductive StepResult where
  | ok (done : Bool)
  | exn
deriving DecidableEq

/-- How the episode while-loop was left (lines 210-334): `doneSuccess` is the
`break` at line 328 after `done` came back true from an acting step; `timeout`
is the loop condition `t < max_steps + cfg.num_steps_wait` turning false;
`exnCaught` is the `except` clause at lines 331-334 (exception printed,
logged, `break`). -/
inductive EndKind where
  | doneSuccess
  | timeout
  | exnCaught
deriving DecidableEq

/-- Result of the episode while-loop. `lastDone` is the episode-local value of
the Python variable `done`: `none` while no `env.step` of this episode has
completed, otherwise the `done` flag of the last completed `env.step`.
`steps` counts completed `env.step` calls; `tEnd` is the final value of the
step counter `t`. -/
structure LoopRes where
  lastDone : Option Bool
  steps : Nat
  endKind : EndKind
  tEnd : Nat
deriving DecidableEq

/-- The episode while-loop of `run_libero_eval.py` lines 210-334, fuel-indexed
by the remaining iterations `bound - t` (the loop condition is
`t < max_steps + cfg.num_steps_wait`, and every non-breaking iteration
increments `t` by exactly 1). For iteration counter `t`:
if `t < wait` the settling branch (lines 214-217) performs one dummy
`env.step` and continues regardless of the returned `done`; otherwise the
acting branch performs one `env.step` (line 324) and breaks with success when
`done` is true (lines 325-328). Any exception breaks the loop
(lines 331-334). `trace t` abstracts the outcome of the iteration whose
counter value is `t` (each counter value is reached at most once). -/
def loopAux (wait : Nat) (trace : Nat → StepResult) :
    Nat → Nat → Option Bool → Nat → LoopRes
  | 0, t, dl, steps => ⟨dl, steps, EndKind.timeout, t⟩
  | fuel + 1, t, dl, steps =>
    match trace t with
    | StepResult.exn => ⟨dl, steps, EndKind.exnCaught, t⟩
    | StepResult.ok d =>
      if t < wait then
        loopAux wait trace fuel (t + 1) (some d) (steps + 1)
      else if d then
        ⟨some d, steps + 1, EndKind.doneSuccess, t⟩
      else
        loopAux wait trace fuel (t + 1) (some d) (steps + 1)

/-- One episode's while-loop run from `t = 0` with no episode-local `done`
assignment yet; the loop bound is `maxSteps + wait` (line 210). -/
def runEpisodeLoop (maxSteps wait : Nat) (trace : Nat → StepResult) : LoopRes :=
  loopAux wait trace (maxSteps + wait) 0 none 0

/-- Value of the Python function-scoped variable `done` after the episode
loop: `done` is assigned exactly at completed `env.step` calls (lines 215 and
324), so after the loop it holds the episode's last completed step's flag if
the episode completed any `env.step`, else whatever value it had before the
episode — `none` meaning it was never assigned in the whole run (reading it
then raises `NameError`). -/
def pythonDone (donePrev : Option Bool) (res : LoopRes) : Option Bool :=
  match res.lastDone with
  | some d => some d
  | none => donePrev

/-- A success/episode tally: `task_episodes`/`task_successes`
(lines 174, 326, 336) and `total_episodes`/`total_successes`
(lines 158, 327, 337) both have this shape. -/
structure Tally where
  episodes : Nat
  successes : Nat
deriving DecidableEq

/-- Effect of one whole episode (loop plus the code at lines 326-327 and
336-365) on the task tally, the run totals, and the recorded outcome.
`recorded = some f` means the post-episode bookkeeping read `done = f` and
recorded it in the per-task JSON file (line 355) and on the saved replay
video (line 364), and the run proceeds; `recorded = none` means `done` was
never assigned in the run, so line 355 raises an uncaught `NameError` and the
run aborts (the tallies at lines 336-337 have already been incremented at
that point, the JSON write and video save do not happen). -/
structure EpisodeEffect where
  tally : Tally
  totals : Tally
  recorded : Option Bool
  res : LoopRes
deriving DecidableEq

/-- One full episode: run the while-loop, then increment the success tallies
iff the loop broke at line 328 (`task_successes`/`total_successes`, lines
326-327), then increment the episode tallies unconditionally (lines 336-337),
then record the current value of `done` (lines 354-365). -/
def runEpisodeFull (maxSteps wait : Nat) (trace : Nat → StepResult)
    (donePrev : Option Bool) (tally totals : Tally) : EpisodeEffect :=
  let res := runEpisodeLoop maxSteps wait trace
  let s : Nat := if res.endKind = EndKind.doneSuccess then 1 else 0
  { tally := ⟨tally.episodes + 1, tally.successes + s⟩
    totals := ⟨totals.episodes + 1, totals.successes + s⟩
    recorded := pythonDone donePrev res
    res := res }

/-- The successive values of one success/episode tally during one episode's
termination handling, in program order: on a successful episode the success
counter is incremented first (line 326/327, inside the loop, right before the
`break`) and the episode counter only later (line 336/337, after the loop);
on any other episode only the episode counter is incremented. -/
def episodeTallyTrace (t : Tally) (success : Bool) : List Tally :=
  if success then
    [t, ⟨t.episodes, t.successes + 1⟩, ⟨t.episodes + 1, t.successes + 1⟩]
  else
    [t, ⟨t.episodes + 1, t.successes⟩]

/-- Componentwise order on tallies (both counters non-decreasing). -/
def tallyLE (a b : Tally) : Prop :=
  a.episodes ≤ b.episodes ∧ a.successes ≤ b.successes

/-- Fresh leaf of the per-task JSON file, `(total_times, success_times)`
(lines 350-353). -/
def jsonLeafInit : Nat × Nat := (0, 0)

/-- Per-episode update of the JSON leaf (lines 354-356): `total_times` is
always incremented, `success_times` iff `done` was true; the file is written
once, after both updates (line 358-359), so written file states see both. -/
def jsonLeafUpdate (leaf : Nat × Nat) (done : Bool) : Nat × Nat :=
  (leaf.1 + 1, leaf.2 + if done then 1 else 0)

/-- The orchestrator's episode plan (lines 160-191): for each of the
`numTasks` iterations of the task loop, the loop variable is immediately
overwritten by the inserted line 163 (`task_id=0`) before `get_task`,
`get_task_init_states` and the environment are built from it, and then
`numTrials` episodes run, episode `episodeIdx` starting from
`initial_states[episode_idx]` (line 191). Each list entry is
`(task id actually used, trial index)`. -/
def episodePlan (numTasks numTrials : Nat) : List (Nat × Nat) :=
  (List.range numTasks).flatMap (fun _ =>
    (List.range numTrials).map (fun episodeIdx => (0, episodeIdx)))

/-- The per-suite `max_steps` selection (lines 197-206): an if/elif chain
with no `else`, so an unlisted suite name leaves the Python local `max_steps`
unassigned (`none`), and its first read — the while-loop bound at line 210 —
raises `NameError`. -/
def maxStepsFor (suite : String) : Option Nat :=
  if suite = "libero_spatial" then some 220
  else if suite = "libero_object" then some 280
  else if suite = "libero_goal" then some 300
  else if suite = "libero_10" then some 520
  else if suite = "libero_90" then some 400
  else none

/-- Observable environment interactions of one episode, in order. -/
inductive EpEvent where
  | reset
  | setInit
  | envStep
deriving DecidableEq

/-- Uncaught errors the evaluation run can abort with. -/
inductive RunError where
  | nameErrorMaxSteps
  | nameErrorDone
deriving DecidableEq

/-- The first episode's environment interactions and abort status
(lines 187-210): `env.reset()` (line 188) and `env.set_init_state` (line 191)
always execute first; then the `max_steps` chain runs, and if the suite name
is unlisted the loop-bound expression at line 210 raises `NameError` before
any `env.step` of the episode — otherwise the while-loop runs and performs
its `env.step` calls. -/
def firstEpisodeEvents (suite : String) (wait : Nat) (trace : Nat → StepResult) :
    List EpEvent × Option RunError :=
  match maxStepsFor suite with
  | none => ([EpEvent.reset, EpEvent.setInit], some RunError.nameErrorMaxSteps)
  | some m =>
    ([EpEvent.reset, EpEvent.setInit] ++
      List.replicate (runEpisodeLoop m wait trace).steps EpEvent.envStep, none)

/-! ## The motion-trace to CSV converter (`src/experiments/logs/convert2csv.py`) -/

/-- Python `str.strip()` on a list of characters. -/
def trimChars (l : List Char) : List Char :=
  ((l.dropWhile Char.isWhitespace).reverse.dropWhile Char.isWhitespace).reverse

/-- Split a character list at every character satisfying `p`, keeping empty
pieces — the semantics of Python `str.split(sep)` for a one-character `sep`
when `p` matches exactly `sep`. The result is always non-empty. -/
def splitOnAux (p : Char → Bool) : List Char → List (List Char)
  | [] => [[]]
  | c :: cs =>
    let r := splitOnAux p cs
    if p c then [] :: r
    else
      match r with
      | [] => [[c]]
      | g :: gs => (c :: g) :: gs

/-- Python `line.split(',')`. -/
def pySplitComma (l : List Char) : List (List Char) :=
  splitOnAux (fun c => c = ',') l

/-- Python `line.split()` — split on whitespace runs, discarding empties. -/
def pySplitWs (l : List Char) : List (List Char) :=
  (splitOnAux Char.isWhitespace l).filter (fun g => g ≠ [])

/-- Digit string to natural number value. -/
def digitsToNat (l : List Char) : Nat :=
  l.foldl (fun acc c => 10 * acc + (c.toNat - 48)) 0

/-- Split at the decimal point. -/
def pySplitDot (l : List Char) : List (List Char) :=
  splitOnAux (fun c => c = '.') l

/-- Unsigned decimal numeral to an exact rational: `digits`, `digits.`,
`.digits` or `digits.digits`. This idealises the plain-decimal subset of
Python `float(v)` actually produced by the motion-trace writer
(`run_libero_eval.py` line 283 formats every field as a signed fixed-point
decimal with 4 fractional digits); exponent/`inf`/`nan`/underscore forms are
out of scope. -/
def parseUnsigned (l : List Char) : Option ℚ :=
  match pySplitDot l with
  | [a] =>
    if (!a.isEmpty) && a.all Char.isDigit then
      some (mkRat (digitsToNat a) 1)
    else none
  | [a, b] =>
    if ((!a.isEmpty) || (!b.isEmpty)) && a.all Char.isDigit && b.all Char.isDigit then
      some (mkRat (digitsToNat (a ++ b)) ((10 : Nat) ^ b.length))
    else none
  | _ => none

/-- Signed decimal numeral to an exact rational (model of `float(v)` on the
fields at hand; `convert2csv.py` line 41). -/
def parseFloat (l : List Char) : Option ℚ :=
  match l with
  | '-' :: rest => (parseUnsigned rest).map (fun q => -q)
  | '+' :: rest => parseUnsigned rest
  | _ => parseUnsigned l

/-- What `convert_to_csv` does with one input line (lines 27-47): skip empty
(stripped) lines silently; otherwise split (comma first, whitespace fallback);
with exactly 4 fields, write the parsed numbers, or — if some field fails to
parse — the raw field strings with a warning; with any other field count,
skip the line with a warning. -/
inductive LineResult where
  | emptySkip
  | badFieldCount
  | rawRow (vals : List (List Char))
  | numRow (vals : List ℚ)
deriving DecidableEq

/-- The field list the code ends up with (lines 33-35): strip the line, split
on commas and strip each field; if that did not yield exactly 4 fields,
split the stripped line on whitespace instead (and strip each field). -/
def effectiveFields (l : List Char) : List (List Char) :=
  let s := trimChars l
  let values := (pySplitComma s).map trimChars
  if values.length = 4 then values else (pySplitWs s).map trimChars

/-- Per-line behaviour of `convert_to_csv` (lines 27-47). -/
def processLine (l : List Char) : LineResult :=
  let s := trimChars l
  if s = [] then LineResult.emptySkip
  else
    let values := effectiveFields l
    if values.length = 4 then
      match values.mapM parseFloat with
      | some qs => LineResult.numRow qs
      | none => LineResult.rawRow values
    else LineResult.badFieldCount

/-- The concrete motion-trace line of the round-trip property. -/
def roundTripLine : String := "0.1234, 0.9800, 0.0500, -0.2000\n"

/-! ## The motion-similarity computation and the action pipeline
(`run_libero_eval.py` lines 260-324), over `ℝ` (idealising numpy float64). -/

/-- A 3-component sub-vector (`action[0:3]` or `action[3:6]`). -/
abbrev Vec3 : Type := ℝ × ℝ × ℝ

noncomputable section

/-- `np.dot` on 3-vectors. -/
def dot (v w : Vec3) : ℝ :=
  v.1 * w.1 + v.2.1 * w.2.1 + v.2.2 * w.2.2

/-- Sum of squared components. -/
def sumsq (v : Vec3) : ℝ :=
  v.1 ^ 2 + v.2.1 ^ 2 + v.2.2 ^ 2

/-- `np.linalg.norm(v, ord=2)` (lines 270-273). -/
def mag (v : Vec3) : ℝ :=
  Real.sqrt (sumsq v)

/-- The direction-change cosine of lines 275-276, current vector first:
`min(np.dot(v, v_prev) / (mag(v) * mag(v_prev) + 1e-6), 1)`. The same
expression is used for the xyz (line 275) and rot (line 276) sub-vectors. -/
def changes_dir (v vprev : Vec3) : ℝ :=
  min (dot v vprev / (mag v * mag vprev + 1e-6)) 1

/-- A 7-component action vector: translation, rotation, gripper scalar. -/
structure ActionVec where
  x : ℝ
  y : ℝ
  z : ℝ
  rx : ℝ
  ry : ℝ
  rz : ℝ
  grip : ℝ

/-- `action[0:3]` (lines 264, 268, 302). -/
def xyzOf (a : ActionVec) : Vec3 := (a.x, a.y, a.z)

/-- `action[3:6]` (lines 265, 269, 303). -/
def rotOf (a : ActionVec) : Vec3 := (a.rx, a.ry, a.rz)

/-- The four values computed and logged per tracked step
(lines 270-283): magnitudes and direction-change cosines of the xyz and rot
sub-vectors. -/
structure SimilarityReport where
  xyz_fudu : ℝ
  xyz_changes_dir : ℝ
  rot_fudu : ℝ
  rot_changes_dir : ℝ

/-- The motion-similarity state and its per-action update
(lines 262-303). State is the stored previous action's `(xyz, rot)`
sub-vectors (`action_previous` sliced at lines 264-265 / 302-303), `none`
when `action_previous is None`. On the first call the current action's
sub-vectors are stored and no report is produced (lines 262-265); on later
calls the report is computed from the current action and the stored vectors
(lines 267-276) and then the stored vectors are overwritten with the current
action's, unconditionally (lines 301-303; the re-inference call in between is
commented out). -/
def trackerUpdate (prev : Option (Vec3 × Vec3)) (a : ActionVec) :
    Option (Vec3 × Vec3) × Option SimilarityReport :=
  match prev with
  | none => (some (xyzOf a, rotOf a), none)
  | some pr =>
    ( some (xyzOf a, rotOf a)
    , some
        { xyz_fudu := mag (xyzOf a)
          xyz_changes_dir := changes_dir (xyzOf a) pr.1
          rot_fudu := mag (rotOf a)
          rot_changes_dir := changes_dir (rotOf a) pr.2 } )

/-- `action_previous = None` at line 196, executed at the start of every
episode (inside the per-episode loop, before the while-loop), so the tracker
state carries nothing over from the previous episode. -/
def episodeInitialTrackerState : Option (Vec3 × Vec3) := none

/-- `replan = False`, hardcoded at line 260: the replanning/tracking branch
at lines 261-303 is statically disabled. -/
def replanFlag : Bool := false

/-- Modelled from the spec: `normalize_gripper_action(action, binarize)` lives
in `experiments/robot/robot_utils.py`, which is not under `src/`. Per spec
section 4.1 it affinely maps the gripper component from `[0, 1]` to
`[-1, +1]` and, when `binarize` is true, snaps the result to one of exactly
two values (fully-open / fully-closed); the translational and rotational
components are untouched. -/
def normalize_gripper_action (a : ActionVec) (binarize : Bool) : ActionVec :=
  let g := 2 * a.grip - 1
  let g := if binarize then (if g < 0 then (-1 : ℝ) else 1) else g
  { a with grip := g }

/-- Modelled from the spec: `invert_gripper_action(action)` lives in
`experiments/robot/robot_utils.py`, which is not under `src/`. Per spec
section 4.1 it flips the sign of the gripper component only. -/
def invert_gripper_action (a : ActionVec) : ActionVec :=
  { a with grip := -a.grip }

/-- Data flow of one acting iteration from the policy's raw action to the
action handed to `env.step` (lines 260-324): the replan/tracker block is
guarded by the hardcoded `replan = False` (line 260-261); then
`normalize_gripper_action(action, binarize=True)` (line 306); then, iff the
model family is `openvla`, `invert_gripper_action` (lines 310-311); the
result is exactly what `env.step` receives at line 324. Returns the tracker
state after the iteration and the executed action. -/
def actingStepAction (family : String) (prev : Option (Vec3 × Vec3))
    (a : ActionVec) : Option (Vec3 × Vec3) × ActionVec :=
  let st := if replanFlag then (trackerUpdate prev a).1 else prev
  let a1 := normalize_gripper_action a true
  let a2 := if family = "openvla" then invert_gripper_action a1 else a1
  (st, a2)

end

/-- The model family string of the evaluated configuration (default
`model_family: str = "openvla"`, `GenerateConfig` line 68). -/
def openvlaFamily : String := "openvla"

/-- Suite names of the `max_steps` table (lines 197-206). -/
def suiteSpatial : String := "libero_spatial"

def suiteObject : String := "libero_object"

def suiteGoal : String := "libero_goal"

def suite10 : String := "libero_10"

def suite90 : String := "libero_90"

/-- A syntactically valid suite name absent from the `max_steps` chain. -/
def unknownSuite : String := "libero_100"

/-- A whitespace-only motion-trace line. -/
def blankLine : String := " \n"

/-- A motion-trace line with only 3 fields. -/
def badCountLine : String := "1, 2, 3"

/-- A 4-field motion-trace line whose fields are not numbers. -/
def rawLine : String := "a, b, c, d"

/-! ## Loop lemmas -/

/-- Each completed iteration performs exactly one `env.step`, so the loop
performs at most `fuel` further steps. -/
lemma loopAux_steps_le (wait : Nat) (trace : Nat → StepResult) :
    ∀ fuel t dl steps, (loopAux wait trace fuel t dl steps).steps ≤ steps + fuel := by
  intro fuel
  induction fuel with
  | zero => intro t dl steps; simp [loopAux]
  | succ n ih =>
    intro t dl steps
    cases h : trace t with
    | exn => simp [loopAux, h]
    | ok d =>
      by_cases hw : t < wait
      · simp only [loopAux, h, if_pos hw]
        have := ih (t + 1) (some d) (steps + 1)
        omega
      · cases d with
        | true =>
          simp [loopAux, h, hw]
        | false =>
          simp only [loopAux, h, if_neg hw, Bool.false_eq_true, if_false]
          have := ih (t + 1) (some false) (steps + 1)
          omega

/-- When no iteration raises, the loop ends with the success `break` or with
the loop condition turning false at `t = t₀ + fuel`. -/
lemma loopAux_no_exn (wait : Nat) (trace : Nat → StepResult)
    (hx : ∀ i, trace i ≠ StepResult.exn) :
    ∀ fuel t dl steps,
      (loopAux wait trace fuel t dl steps).endKind = EndKind.doneSuccess ∨
      ((loopAux wait trace fuel t dl steps).endKind = EndKind.timeout ∧
        (loopAux wait trace fuel t dl steps).tEnd = t + fuel) := by
  intro fuel
  induction fuel with
  | zero => intro t dl steps; right; exact ⟨rfl, rfl⟩
  | succ n ih =>
    intro t dl steps
    cases h : trace t with
    | exn => exact absurd h (hx t)
    | ok d =>
      by_cases hw : t < wait
      · simp only [loopAux, h, if_pos hw]
        rcases ih (t + 1) (some d) (steps + 1) with h1 | ⟨h1, h2⟩
        · exact Or.inl h1
        · exact Or.inr ⟨h1, by omega⟩
      · cases d with
        | true =>
          simp [loopAux, h, hw]
        | false =>
          simp only [loopAux, h, if_neg hw, Bool.false_eq_true, if_false]
          rcases ih (t + 1) (some false) (steps + 1) with h1 | ⟨h1, h2⟩
          · exact Or.inl h1
          · exact Or.inr ⟨h1, by omega⟩

/-- Exact behaviour when the iterations before `k` complete (acting ones
without `done`) and iteration `k` raises: the loop breaks through the
`except` clause at counter `k`, and the episode-local `done` has been
assigned iff some iteration before `k` ran. -/
lemma loopAux_exn (wait : Nat) (trace : Nat → StepResult) (k : Nat)
    (hk : trace k = StepResult.exn)
    (hpre : ∀ i, i < k → ∃ d, trace i = StepResult.ok d ∧ (wait ≤ i → d = false)) :
    ∀ fuel t dl steps, t ≤ k → k < t + fuel →
      (loopAux wait trace fuel t dl steps).endKind = EndKind.exnCaught ∧
      (loopAux wait trace fuel t dl steps).tEnd = k ∧
      (t < k → ((loopAux wait trace fuel t dl steps).lastDone).isSome = true) ∧
      (t = k → (loopAux wait trace fuel t dl steps).lastDone = dl) := by
  intro fuel
  induction fuel with
  | zero => intro t dl steps h1 h2; omega
  | succ n ih =>
    intro t dl steps ht hk2
    rcases Nat.eq_or_lt_of_le ht with heq | hlt
    · subst heq
      simp [loopAux, hk]
    · obtain ⟨d, hd, hdf⟩ := hpre t hlt
      have key : ∀ dl',
          (loopAux wait trace n (t + 1) (some d) (steps + 1)).endKind = EndKind.exnCaught ∧
          (loopAux wait trace n (t + 1) (some d) (steps + 1)).tEnd = k ∧
          (t < k → ((loopAux wait trace n (t + 1) (some d) (steps + 1)).lastDone).isSome = true) ∧
          (t = k → (loopAux wait trace n (t + 1) (some d) (steps + 1)).lastDone = dl') := by
        intro dl'
        have hih := ih (t + 1) (some d) (steps + 1) hlt (by omega)
        refine ⟨hih.1, hih.2.1, fun _ => ?_, fun h => absurd h (Nat.ne_of_lt hlt)⟩
        rcases Nat.lt_or_ge (t + 1) k with h' | h'
        · exact hih.2.2.1 h'
        · have : t + 1 = k := by omega
          rw [hih.2.2.2 this]
          rfl
      by_cases hw : t < wait
      · simp only [loopAux, hd, if_pos hw]
        exact key dl
      · have hdd : d = false := hdf (Nat.le_of_not_lt hw)
        subst hdd
        simp only [loopAux, hd, if_neg hw, Bool.false_eq_true, if_false]
        exact key dl

/-! ## Claim theorems -/

/-- C1 (counterexample): the claim "no step-level exception ever propagates
past the episode boundary or aborts the run" fails at a concrete input. In
the very first episode of a run (`done` never assigned, modelled by
`donePrev = none`), an exception at the first settling step leaves `done`
unbound; the post-episode bookkeeping at line 355 (`if done:`) then raises an
uncaught `NameError` (`recorded = none`), aborting the run. -/
theorem c1_counterexample :
    (runEpisodeFull 220 10 (fun _ => StepResult.exn) none ⟨0, 0⟩ ⟨0, 0⟩).recorded = none := by
  decide

/-- C1 (amended): for every episode whose iterations before `k` complete
(acting ones without `done = True`) and whose iteration `k` raises, with `k`
inside the loop bound: the exception is caught, the loop ends at counter `k`
through the `except` clause, the episode tally is incremented while the
success tally is not, and — provided some `env.step` completed earlier in the
run (`donePrev` assigned) or earlier in this episode (`0 < k`) — the
post-episode bookkeeping succeeds and the run proceeds to the next
episode. -/
theorem c1_amended_exception_containment (maxSteps wait k : Nat)
    (trace : Nat → StepResult) (donePrev : Option Bool) (tally totals : Tally)
    (hk : trace k = StepResult.exn)
    (hpre : ∀ i, i < k → ∃ d, trace i = StepResult.ok d ∧ (wait ≤ i → d = false))
    (hin : k < maxSteps + wait)
    (hfirst : donePrev.isSome = true ∨ 0 < k) :
    (runEpisodeFull maxSteps wait trace donePrev tally totals).res.endKind =
      EndKind.exnCaught ∧
    (runEpisodeFull maxSteps wait trace donePrev tally totals).res.tEnd = k ∧
    (runEpisodeFull maxSteps wait trace donePrev tally totals).tally =
      ⟨tally.episodes + 1, tally.successes⟩ ∧
    (runEpisodeFull maxSteps wait trace donePrev tally totals).totals =
      ⟨totals.episodes + 1, totals.successes⟩ ∧
    ((runEpisodeFull maxSteps wait trace donePrev tally totals).recorded).isSome = true := by
  have h := loopAux_exn wait trace k hk hpre (maxSteps + wait) 0 none 0
    (Nat.zero_le k) (by omega)
  refine ⟨h.1, h.2.1, ?_, ?_, ?_⟩
  · simp [runEpisodeFull, runEpisodeLoop, h.1]
  · simp [runEpisodeFull, runEpisodeLoop, h.1]
  · simp only [runEpisodeFull, pythonDone]
    rcases hfirst with hf | hpos
    · cases hl : (runEpisodeLoop maxSteps wait trace).lastDone with
      | none => exact hf
      | some d => rfl
    · obtain ⟨d, hd⟩ := Option.isSome_iff_exists.mp (h.2.2.1 hpos)
      rw [show (runEpisodeLoop maxSteps wait trace).lastDone = some d from hd]
      rfl

/-- C1 (witness): a concrete failing episode — settling step 0 completes
(with `done = True`, which settling ignores), acting step 1 raises; the
episode tally goes from 2 to 3, the success tally stays 1, and the run
proceeds. -/
theorem c1_witness :
    ((fun i : Nat => if i = 0 then StepResult.ok true else StepResult.exn) 1 =
      StepResult.exn) ∧
    1 < 3 + 1 ∧
    ((runEpisodeFull 3 1 (fun i : Nat => if i = 0 then StepResult.ok true else StepResult.exn)
        none ⟨2, 1⟩ ⟨5, 3⟩).res.endKind = EndKind.exnCaught ∧
      (runEpisodeFull 3 1 (fun i : Nat => if i = 0 then StepResult.ok true else StepResult.exn)
        none ⟨2, 1⟩ ⟨5, 3⟩).res.tEnd = 1 ∧
      (runEpisodeFull 3 1 (fun i : Nat => if i = 0 then StepResult.ok true else StepResult.exn)
        none ⟨2, 1⟩ ⟨5, 3⟩).tally = ⟨(Tally.mk 2 1).episodes + 1, (Tally.mk 2 1).successes⟩ ∧
      (runEpisodeFull 3 1 (fun i : Nat => if i = 0 then StepResult.ok true else StepResult.exn)
        none ⟨2, 1⟩ ⟨5, 3⟩).totals = ⟨(Tally.mk 5 3).episodes + 1, (Tally.mk 5 3).successes⟩ ∧
      ((runEpisodeFull 3 1 (fun i : Nat => if i = 0 then StepResult.ok true else StepResult.exn)
        none ⟨2, 1⟩ ⟨5, 3⟩).recorded).isSome = true) :=
  ⟨by decide, by decide,
    c1_amended_exception_containment 3 1 1
      (fun i : Nat => if i = 0 then StepResult.ok true else StepResult.exn)
      none ⟨2, 1⟩ ⟨5, 3⟩ (by decide) (by decide) (by decide) (Or.inr (by decide))⟩

/-- C2 (counterexample): the claim "each of the N distinct tasks is run"
fails at a concrete input — in a 2-task suite with 1 trial per task, no
episode of task 1 is ever planned, because line 163 overrides the loop
variable with `task_id=0`. -/
theorem c2_counterexample : (1, 0) ∉ episodePlan 2 1 := by decide

/-- C2 (amended): the orchestrator iterates `numTasks` times, but every
iteration evaluates task 0 (the inserted `task_id=0` at line 163): the plan
contains exactly the pairs `(0, episodeIdx)` for `episodeIdx < numTrials`
(whenever the suite is non-empty), `numTasks * numTrials` episodes in total,
each episode starting from task 0's initial state for its trial index;
tasks `1..numTasks-1` are never evaluated. -/
theorem c2_amended_task_zero_plan (numTasks numTrials : Nat) (p : Nat × Nat) :
    (p ∈ episodePlan numTasks numTrials ↔
      0 < numTasks ∧ p.1 = 0 ∧ p.2 < numTrials) ∧
    (episodePlan numTasks numTrials).length = numTasks * numTrials := by
  obtain ⟨p1, p2⟩ := p
  constructor
  · simp only [episodePlan, List.mem_flatMap, List.mem_map, List.mem_range]
    constructor
    · rintro ⟨a, ha, e, he, hpe⟩
      obtain ⟨h1, h2⟩ := Prod.mk.injEq .. ▸ hpe
      exact ⟨Nat.lt_of_le_of_lt (Nat.zero_le a) ha, h1.symm ▸ rfl, h2 ▸ he⟩
    · rintro ⟨hn, h1, h2⟩
      have h1' : p1 = 0 := h1
      subst h1'
      exact ⟨0, hn, p2, h2, rfl⟩
  · induction numTasks with
    | zero => simp [episodePlan]
    | succ n ih =>
      simp only [episodePlan, List.range_succ, List.flatMap_append,
        List.length_append, List.flatMap_singleton, List.length_map,
        List.length_range] at ih ⊢
      rw [Nat.succ_mul]
      omega

/-- C3 (counterexample): the claim "the run fails with a ConfigurationError
at run start, aborting before any episode executes" fails at a concrete
input — for the suite name `libero_100`, which has no `max_steps` mapping,
the first episode's `env.reset()` and `env.set_init_state` have already
executed when the failure occurs. -/
theorem c3_counterexample :
    maxStepsFor unknownSuite = none ∧
    (firstEpisodeEvents unknownSuite 10 (fun _ => StepResult.ok false)).1 =
      [EpEvent.reset, EpEvent.setInit] ∧
    (firstEpisodeEvents unknownSuite 10 (fun _ => StepResult.ok false)).1 ≠ [] := by
  decide

/-- C3 (amended): if the configured task-suite name has no `max_steps`
mapping, the run aborts with an uncaught `NameError` (the unassigned
`max_steps` local is first read by the while-loop bound at line 210) when
the first episode starts — after that episode's `env.reset()` and
`env.set_init_state` but before any `env.step`; the failure is discovered
mid-run, not validated at run start, and is not a `ConfigurationError`. -/
theorem c3_amended_missing_suite (suite : String) (wait : Nat)
    (trace : Nat → StepResult) (h : maxStepsFor suite = none) :
    firstEpisodeEvents suite wait trace =
      ([EpEvent.reset, EpEvent.setInit], some RunError.nameErrorMaxSteps) ∧
    EpEvent.envStep ∉ (firstEpisodeEvents suite wait trace).1 := by
  have h1 : firstEpisodeEvents suite wait trace =
      ([EpEvent.reset, EpEvent.setInit], some RunError.nameErrorMaxSteps) := by
    unfold firstEpisodeEvents
    rw [h]
  exact ⟨h1, by rw [h1]; decide⟩

/-- C3 (witness): the amended claim at the concrete unmapped suite name
`libero_100`. -/
theorem c3_witness :
    maxStepsFor unknownSuite = none ∧
    (firstEpisodeEvents unknownSuite 7 (fun _ => StepResult.ok true) =
      ([EpEvent.reset, EpEvent.setInit], some RunError.nameErrorMaxSteps) ∧
      EpEvent.envStep ∉ (firstEpisodeEvents unknownSuite 7 (fun _ => StepResult.ok true)).1) :=
  ⟨by decide,
    c3_amended_missing_suite unknownSuite 7 (fun _ => StepResult.ok true) (by decide)⟩

/-- C6: every episode's step loop terminates within its bound. The per-suite
`max_steps` table is exactly {libero_spatial 220, libero_object 280,
libero_goal 300, libero_10 520, libero_90 400}; at most
`max_steps + num_steps_wait` environment steps are executed per episode
(whatever the environment does, exceptions included); and when no iteration
raises, the episode ends either on environment-reported completion
(`doneSuccess`) or with the step counter reaching `max_steps +
num_steps_wait` (`timeout`). -/
theorem c6_termination_and_step_bound :
    (maxStepsFor suiteSpatial = some 220 ∧ maxStepsFor suiteObject = some 280 ∧
      maxStepsFor suiteGoal = some 300 ∧ maxStepsFor suite10 = some 520 ∧
      maxStepsFor suite90 = some 400) ∧
    (∀ maxSteps wait trace,
      (runEpisodeLoop maxSteps wait trace).steps ≤ maxSteps + wait) ∧
    (∀ maxSteps wait trace, (∀ i, trace i ≠ StepResult.exn) →
      (runEpisodeLoop maxSteps wait trace).endKind = EndKind.doneSuccess ∨
      ((runEpisodeLoop maxSteps wait trace).endKind = EndKind.timeout ∧
        (runEpisodeLoop maxSteps wait trace).tEnd = maxSteps + wait)) := by
  refine ⟨by decide, ?_, ?_⟩
  · intro m w trace
    have := loopAux_steps_le w trace (m + w) 0 none 0
    simpa [runEpisodeLoop] using this
  · intro m w trace hx
    have := loopAux_no_exn w trace hx (m + w) 0 none 0
    simpa [runEpisodeLoop] using this

/-- C6 (witness): a concrete exception-free episode (every step completes
with `done = False`) ends by success or by timeout at `2 + 1`. -/
theorem c6_witness :
    ((fun _ : Nat => StepResult.ok false) 0 ≠ StepResult.exn) ∧
    ((runEpisodeLoop 2 1 (fun _ : Nat => StepResult.ok false)).endKind =
        EndKind.doneSuccess ∨
      ((runEpisodeLoop 2 1 (fun _ : Nat => StepResult.ok false)).endKind =
          EndKind.timeout ∧
        (runEpisodeLoop 2 1 (fun _ : Nat => StepResult.ok false)).tEnd = 2 + 1)) :=
  ⟨by decide,
    c6_termination_and_step_bound.2.2 2 1 (fun _ : Nat => StepResult.ok false)
      (fun _ h => StepResult.noConfusion h)⟩

/-- C7 (counterexample): the claim "at all times every tally satisfies
successes ≤ episodes" fails at a concrete input — on a successful episode
starting from the tally (0, 0), the intermediate state between the success
increment (line 326/327) and the episode increment (line 336/337) has
successes = 1 > episodes = 0. -/
theorem c7_counterexample :
    ¬ (∀ s ∈ episodeTallyTrace ⟨0, 0⟩ true, s.successes ≤ s.episodes) := by
  decide

/-- C7 (amended): starting from a tally with `successes ≤ episodes`, every
intermediate state of an episode's termination handling satisfies
`successes ≤ episodes + 1` (the success counters are incremented before the
episode counters, so the invariant can be violated by exactly one
transiently), the final state restores `successes ≤ episodes`, both counters
are monotonically non-decreasing along the trace, and the per-task JSON
leaf counters `(total_times, success_times)` start at (0, 0) and preserve
`success_times ≤ total_times` and monotonicity at every written file
state. -/
theorem c7_amended_tally_invariants :
    (∀ t : Tally, ∀ s : Bool, t.successes ≤ t.episodes →
      ∀ u ∈ episodeTallyTrace t s, u.successes ≤ u.episodes + 1) ∧
    (∀ t : Tally, ∀ s : Bool, t.successes ≤ t.episodes →
      (episodeTallyTrace t s).getLast? =
        some ⟨t.episodes + 1, t.successes + if s then 1 else 0⟩ ∧
      t.successes + (if s then 1 else 0) ≤ t.episodes + 1) ∧
    (∀ t : Tally, ∀ s : Bool, List.Chain' tallyLE (episodeTallyTrace t s)) ∧
    jsonLeafInit.2 ≤ jsonLeafInit.1 ∧
    (∀ leaf : Nat × Nat, ∀ done : Bool, leaf.2 ≤ leaf.1 →
      (jsonLeafUpdate leaf done).2 ≤ (jsonLeafUpdate leaf done).1 ∧
      leaf.1 ≤ (jsonLeafUpdate leaf done).1 ∧
      leaf.2 ≤ (jsonLeafUpdate leaf done).2) := by
  refine ⟨?_, ?_, ?_, by decide, ?_⟩
  · intro t s hts u hu
    cases s with
    | false =>
      simp only [episodeTallyTrace, Bool.false_eq_true, if_false,
        List.mem_cons, List.not_mem_nil, or_false] at hu
      rcases hu with rfl | rfl
      · omega
      · show t.successes ≤ t.episodes + 1 + 1
        omega
    | true =>
      simp only [episodeTallyTrace, if_true, List.mem_cons,
        List.not_mem_nil, or_false] at hu
      rcases hu with rfl | rfl | rfl
      · omega
      · show t.successes + 1 ≤ t.episodes + 1
        omega
      · show t.successes + 1 ≤ t.episodes + 1 + 1
        omega
  · intro t s hts
    cases s with
    | false =>
      exact ⟨rfl, by show t.successes + 0 ≤ t.episodes + 1; omega⟩
    | true =>
      exact ⟨rfl, by show t.successes + 1 ≤ t.episodes + 1; omega⟩
  · intro t s
    cases s with
    | false =>
      simp only [episodeTallyTrace, Bool.false_eq_true, if_false,
        List.chain'_cons, List.chain'_singleton, and_true]
      exact ⟨Nat.le_succ _, Nat.le_refl _⟩
    | true =>
      simp only [episodeTallyTrace, if_true, List.chain'_cons,
        List.chain'_singleton, and_true]
      exact ⟨⟨Nat.le_refl _, Nat.le_succ _⟩, Nat.le_succ _, Nat.le_refl _⟩
  · intro leaf done hld
    cases done with
    | false => simp [jsonLeafUpdate]; omega
    | true => simp [jsonLeafUpdate]; omega

/-- C7 (witness): the amended invariants at the concrete tally (0, 0) on a
successful episode and the JSON leaf (0, 0) on a successful episode. -/
theorem c7_witness :
    (Tally.mk 0 0).successes ≤ (Tally.mk 0 0).episodes ∧
    (∀ u ∈ episodeTallyTrace ⟨0, 0⟩ true, u.successes ≤ u.episodes + 1) ∧
    ((0, 0) : Nat × Nat).2 ≤ ((0, 0) : Nat × Nat).1 ∧
    ((jsonLeafUpdate (0, 0) true).2 ≤ (jsonLeafUpdate (0, 0) true).1 ∧
      ((0, 0) : Nat × Nat).1 ≤ (jsonLeafUpdate (0, 0) true).1 ∧
      ((0, 0) : Nat × Nat).2 ≤ (jsonLeafUpdate (0, 0) true).2) :=
  ⟨by decide, c7_amended_tally_invariants.1 ⟨0, 0⟩ true (by decide),
    by decide, c7_amended_tally_invariants.2.2.2.2 (0, 0) true (by decide)⟩

/-- C10: for every episode in which at least one `env.step` completed (the
episode-local `done` was assigned, with final value `d`), the success flag
recorded in the per-task JSON file and attached to the saved replay video is
exactly `d` — and whenever the episode did not end through the success
`break` (exception or timeout), the task success tally is unchanged, so the
recorded flag can disagree with the tally's treatment of the episode (for
instance when `d` came from a settling step). -/
theorem c10_recorded_success_flag (maxSteps wait : Nat) (trace : Nat → StepResult)
    (donePrev : Option Bool) (tally totals : Tally) (d : Bool)
    (h : (runEpisodeLoop maxSteps wait trace).lastDone = some d) :
    (runEpisodeFull maxSteps wait trace donePrev tally totals).recorded = some d ∧
    ((runEpisodeFull maxSteps wait trace donePrev tally totals).res.endKind ≠
        EndKind.doneSuccess →
      (runEpisodeFull maxSteps wait trace donePrev tally totals).tally.successes =
        tally.successes) := by
  constructor
  · simp only [runEpisodeFull, pythonDone]
    rw [h]
  · intro hne
    have hne' : (runEpisodeLoop maxSteps wait trace).endKind ≠ EndKind.doneSuccess := hne
    simp [runEpisodeFull, hne']

/-- C10 (witness): a concrete episode whose settling step 0 completes with
`done = True` and whose acting step raises: the recorded success flag is
`True` (from the settling step) while the success tally is unchanged. -/
theorem c10_witness :
    (runEpisodeLoop 220 10
        (fun i : Nat => if i = 0 then StepResult.ok true else StepResult.exn)).lastDone =
      some true ∧
    ((runEpisodeFull 220 10
        (fun i : Nat => if i = 0 then StepResult.ok true else StepResult.exn)
        none ⟨0, 0⟩ ⟨0, 0⟩).recorded = some true ∧
      ((runEpisodeFull 220 10
          (fun i : Nat => if i = 0 then StepResult.ok true else StepResult.exn)
          none ⟨0, 0⟩ ⟨0, 0⟩).res.endKind ≠ EndKind.doneSuccess →
        (runEpisodeFull 220 10
          (fun i : Nat => if i = 0 then StepResult.ok true else StepResult.exn)
          none ⟨0, 0⟩ ⟨0, 0⟩).tally.successes = (Tally.mk 0 0).successes)) :=
  ⟨by decide,
    c10_recorded_success_flag 220 10
      (fun i : Nat => if i = 0 then StepResult.ok true else StepResult.exn)
      none ⟨0, 0⟩ ⟨0, 0⟩ true (by decide)⟩

/-- C4: on every acting step with replanning disabled (which is the
hardcoded state, `replan = False` at line 260, so the replan gate is never
consulted and the tracker state is untouched), the action executed against
the environment for the `openvla` model family is exactly the policy's
original action passed through `normalize_gripper_action(·, binarize=True)`
and then `invert_gripper_action`, in that order, with no other
transformation before `env.step`. -/
theorem c4_action_pipeline (prev : Option (Vec3 × Vec3)) (a : ActionVec) :
    actingStepAction openvlaFamily prev a =
      (prev, invert_gripper_action (normalize_gripper_action a true)) := by
  simp [actingStepAction, replanFlag, openvlaFamily]

/-- C8: the previous-action motion state is `None` at the start of every
episode (line 196 runs inside the per-episode loop, so nothing carries over
across episodes); the first tracker update of an episode stores the action's
xyz and rot sub-vectors and returns no report; and every later update
returns the report computed against the stored vectors and then overwrites
them with the current action's sub-vectors, unconditionally. -/
theorem c8_tracker_lifecycle (a : ActionVec) (p : Vec3 × Vec3) :
    episodeInitialTrackerState = none ∧
    trackerUpdate none a = (some (xyzOf a, rotOf a), none) ∧
    (trackerUpdate (some p) a).1 = some (xyzOf a, rotOf a) ∧
    (trackerUpdate (some p) a).2 =
      some { xyz_fudu := mag (xyzOf a)
             xyz_changes_dir := changes_dir (xyzOf a) p.1
             rot_fudu := mag (rotOf a)
             rot_changes_dir := changes_dir (rotOf a) p.2 } :=
  ⟨rfl, rfl, rfl, rfl⟩

/-- The sum of squared components is non-negative. -/
lemma sumsq_nonneg (v : Vec3) : 0 ≤ sumsq v := by
  simp only [sumsq]
  positivity

/-- Cauchy-Schwarz for 3-component vectors, in squared form. -/
lemma dot_sq_le_sumsq_mul (v w : Vec3) : dot v w ^ 2 ≤ sumsq v * sumsq w := by
  simp only [dot, sumsq]
  nlinarith [sq_nonneg (v.1 * w.2.1 - v.2.1 * w.1),
    sq_nonneg (v.1 * w.2.2 - v.2.2 * w.1),
    sq_nonneg (v.2.1 * w.2.2 - v.2.2 * w.2.1)]

/-- Cauchy-Schwarz: the dot product is bounded by the product of norms. -/
lemma abs_dot_le_mag_mul (v w : Vec3) : |dot v w| ≤ mag v * mag w := by
  have h1 : mag v * mag w = Real.sqrt (sumsq v * sumsq w) := by
    rw [mag, mag, ← Real.sqrt_mul (sumsq_nonneg v)]
  rw [h1, ← Real.sqrt_sq_eq_abs]
  exact Real.sqrt_le_sqrt (dot_sq_le_sumsq_mul v w)

/-- C5: for every pair of current/previous 3-component sub-vectors the
similarity value is exactly `min(dot(v, v_prev) / (|v| * |v_prev| + 1e-6), 1)`
(the same expression serves the xyz and rot sub-vectors); for non-zero
sub-vectors both cosine outputs lie in `[-1, 1]`; and on identical non-zero
consecutive sub-vectors the cosine is approximately 1: it lies in
`[1 - 1e-6 / |v|², 1]`. -/
theorem c5_cosine_similarity (v w : Vec3) :
    changes_dir v w = min (dot v w / (mag v * mag w + 1e-6)) 1 ∧
    (0 < sumsq v → 0 < sumsq w →
      -1 ≤ changes_dir v w ∧ changes_dir v w ≤ 1) ∧
    (0 < sumsq v →
      1 - 1e-6 / sumsq v ≤ changes_dir v v ∧ changes_dir v v ≤ 1) := by
  have heps : (0 : ℝ) < 1e-6 := by norm_num
  have hmv : 0 ≤ mag v := Real.sqrt_nonneg _
  have hmw : 0 ≤ mag w := Real.sqrt_nonneg _
  refine ⟨rfl, fun hv hw => ⟨?_, min_le_right _ _⟩, fun hv => ?_⟩
  · have hden : 0 < mag v * mag w + 1e-6 := by nlinarith [mul_nonneg hmv hmw]
    have hlow : -(mag v * mag w) ≤ dot v w :=
      neg_le_of_abs_le (abs_dot_le_mag_mul v w)
    have hq : (-1 : ℝ) ≤ dot v w / (mag v * mag w + 1e-6) := by
      rw [le_div_iff₀ hden]
      linarith
    exact le_min hq (by norm_num)
  · have hdd : dot v v = sumsq v := by
      simp only [dot, sumsq]
      ring
    have hm2 : mag v * mag v = sumsq v := Real.mul_self_sqrt (sumsq_nonneg v)
    have hden : 0 < sumsq v + 1e-6 := by linarith
    have hle1 : sumsq v / (sumsq v + 1e-6) ≤ 1 := by
      rw [div_le_one hden]
      linarith
    have hmin : changes_dir v v = sumsq v / (sumsq v + 1e-6) := by
      simp only [changes_dir, hdd, hm2]
      exact min_eq_left hle1
    refine ⟨?_, by rw [hmin]; exact hle1⟩
    rw [hmin]
    have hsplit : sumsq v / (sumsq v + 1e-6) = 1 - 1e-6 / (sumsq v + 1e-6) := by
      field_simp
    have h2 : 1e-6 / (sumsq v + 1e-6) ≤ 1e-6 / sumsq v := by
      rw [div_le_div_iff₀ hden hv]
      nlinarith
    rw [hsplit]
    linarith

/-- C5 (witness): the bounds at the concrete non-zero sub-vector (1, 0, 0)
paired with itself. -/
theorem c5_witness :
    (0 : ℝ) < sumsq ((1 : ℝ), 0, 0) ∧
    (-1 ≤ changes_dir ((1 : ℝ), 0, 0) ((1 : ℝ), 0, 0) ∧
      changes_dir ((1 : ℝ), 0, 0) ((1 : ℝ), 0, 0) ≤ 1) ∧
    (1 - 1e-6 / sumsq ((1 : ℝ), 0, 0) ≤ changes_dir ((1 : ℝ), 0, 0) ((1 : ℝ), 0, 0) ∧
      changes_dir ((1 : ℝ), 0, 0) ((1 : ℝ), 0, 0) ≤ 1) := by
  have h0 : (0 : ℝ) < sumsq ((1 : ℝ), 0, 0) := by
    simp [sumsq]
  exact ⟨h0, (c5_cosine_similarity ((1 : ℝ), 0, 0) ((1 : ℝ), 0, 0)).2.1 h0 h0,
    (c5_cosine_similarity ((1 : ℝ), 0, 0) ((1 : ℝ), 0, 0)).2.2 h0⟩

/-- C9 (counterexample): the claim "for every input line, a line that yields
a field count other than 4 is skipped with a warning" fails at a concrete
input — a whitespace-only line yields field count 0 under the code's
splitting, yet is skipped silently (the empty-line branch at line 29-30),
not through the warning branch. -/
theorem c9_counterexample :
    (effectiveFields blankLine.toList).length ≠ 4 ∧
    processLine blankLine.toList = LineResult.emptySkip ∧
    LineResult.emptySkip ≠ LineResult.badFieldCount := by
  decide

/-- C9 (amended): the converter maps the motion-trace line
`"0.1234, 0.9800, 0.0500, -0.2000\n"` to the CSV row
`[0.1234, 0.98, 0.05, -0.2]`; an empty-after-stripping line is skipped
silently with no CSV row; every non-empty line yielding a field count other
than 4 (comma splitting, whitespace fallback) is skipped with a warning and
produces no CSV row; and every non-empty 4-field line whose fields are not
all parseable as numbers is written through as the raw field strings with a
warning instead of aborting. -/
theorem c9_amended_line_conversion :
    processLine roundTripLine.toList =
      LineResult.numRow [(0.1234 : ℚ), 0.98, 0.05, -0.2] ∧
    (∀ l : List Char, trimChars l = [] → processLine l = LineResult.emptySkip) ∧
    (∀ l : List Char, trimChars l ≠ [] → (effectiveFields l).length ≠ 4 →
      processLine l = LineResult.badFieldCount) ∧
    (∀ l : List Char, trimChars l ≠ [] → (effectiveFields l).length = 4 →
      (effectiveFields l).mapM parseFloat = none →
      processLine l = LineResult.rawRow (effectiveFields l)) := by
  refine ⟨?_, ?_, ?_, ?_⟩
  · have e1 : (0.1234 : ℚ) = mkRat 1234 10000 := by
      rw [show (0.1234 : ℚ) = Rat.ofScientific 1234 true 4 from rfl,
        Rat.ofScientific_true_def]
      decide
    have e2 : (0.98 : ℚ) = mkRat 98 100 := by
      rw [show (0.98 : ℚ) = Rat.ofScientific 98 true 2 from rfl,
        Rat.ofScientific_true_def]
      decide
    have e3 : (0.05 : ℚ) = mkRat 5 100 := by
      rw [show (0.05 : ℚ) = Rat.ofScientific 5 true 2 from rfl,
        Rat.ofScientific_true_def]
      decide
    have e4 : (-0.2 : ℚ) = -(mkRat 2 10) := by
      rw [show (0.2 : ℚ) = Rat.ofScientific 2 true 1 from rfl,
        Rat.ofScientific_true_def]
      decide
    rw [e1, e2, e3, e4]
    decide
  · intro l h
    simp only [processLine]
    rw [if_pos h]
  · intro l h h4
    simp only [processLine]
    rw [if_neg h, if_neg h4]
  · intro l h h4 hn
    simp only [processLine]
    rw [if_neg h, if_pos h4, hn]

/-- C9 (witness): the amended behaviour at the concrete 3-field line
`"1, 2, 3"` (skipped through the warning branch) and the concrete 4-field
non-numeric line `"a, b, c, d"` (written through as raw text). -/
theorem c9_witness :
    trimChars badCountLine.toList ≠ [] ∧
    (effectiveFields badCountLine.toList).length ≠ 4 ∧
    processLine badCountLine.toList = LineResult.badFieldCount ∧
    trimChars rawLine.toList ≠ [] ∧
    (effectiveFields rawLine.toList).length = 4 ∧
    (effectiveFields rawLine.toList).mapM parseFloat = none ∧
    processLine rawLine.toList = LineResult.rawRow (effectiveFields rawLine.toList) :=
  ⟨by decide, by decide,
    c9_amended_line_conversion.2.2.1 badCountLine.toList (by decide) (by decide),
    by decide, by decide, by decide,
    c9_amended_line_conversion.2.2.2 rawLine.toList (by decide) (by decide) (by decide)⟩

end LiberoEval
